import Mathlib

/-
Shallow embedding of src/main.py of high-rated-dining-search.

The program geocodes an address, queries a places API for nearby venues,
filters them by a minimum rating, and renders a map and table.  HTTP
responses are modelled as structured values passed in explicitly; the
URL-building, JSON-field access and filtering logic is translated
line by line from the source.  Ratings and coordinates are modelled as
rationals.
-/

namespace DiningSearch

/-- Python truthiness for an optional string: `None` and `""` are falsy. -/
def truthy : Option String → Bool
  | none => false
  | some s => s ≠ ""

/-- A geometry location, `geometry.location.{lat,lng}` in the JSON bodies. -/
structure GeoLocation where
  lat : Rat
  lng : Rat
  deriving DecidableEq, Repr

/-- One element of the geocode response's `results` array
(`results[i].geometry.location`). -/
structure GeoResult where
  location : GeoLocation
  deriving DecidableEq, Repr

/-- The geocode response body: a `status` string and a `results` array. -/
structure GeocodeResponse where
  status : String
  results : List GeoResult
  deriving DecidableEq, Repr

/-- Errors raised by the Python code paths modelled here:
`Exception("住所を取得できませんでした")` in `get_coordinates`, and the
`IndexError` from `result\x7b"results"\x7d[0]` on an empty array. -/
inductive PyError where
  | geocodeError (msg : String)
  | indexError
  deriving DecidableEq, Repr

/-- `str(e)` for the modelled errors, as interpolated by `main`'s handler. -/
def PyError.message : PyError → String
  | .geocodeError m => m
  | .indexError => "list index out of range"

/-- The URL built on line 31 of src/main.py:
`f"https://maps.googleapis.com/maps/api/geocode/json?address={address}&key={api_key}"`.
The f-string interpolates `address` and `api_key` verbatim. -/
def geocode_url (address api_key : String) : String :=
  "https://maps.googleapis.com/maps/api/geocode/json?address=" ++ address
    ++ "&key=" ++ api_key

/-- The message of the exception raised on line 38 of src/main.py. -/
def geocode_err_msg : String := "住所を取得できませんでした"

/-- `get_coordinates` (src/main.py lines 34–38), applied to the decoded JSON
body of the geocode response.  On status `"OK"` it reads
`result["results"][0]["geometry"]["location"]`, which raises an `IndexError`
when the array is empty; otherwise it raises
`Exception("住所を取得できませんでした")`. -/
def get_coordinates (resp : GeocodeResponse) : Except PyError (Rat × Rat) :=
  if resp.status = "OK" then
    match resp.results with
    | [] => .error .indexError
    | r :: _ => .ok (r.location.lat, r.location.lng)
  else
    .error (.geocodeError geocode_err_msg)

/-- One element of the places response's `results` array.  `name`, `rating`
and `vicinity` are read with `dict.get` (optional); `geometry.location` is
read with `[...]` indexing (required here, as in the claims considered). -/
structure Place where
  name : Option String
  rating : Option Rat
  vicinity : Option String
  location : GeoLocation
  deriving DecidableEq, Repr

/-- The places response body; `results := none` models a JSON body in which
the `results` key is absent (`response.json().get("results", [])`). -/
structure PlacesResponse where
  results : Option (List Place)
  deriving DecidableEq, Repr

/-- The `Restaurant` class of src/main.py lines 9–15. -/
structure Restaurant where
  name : Option String
  rating : Option Rat
  address : Option String
  lat : Rat
  lng : Rat
  deriving DecidableEq, Repr

/-- The constructor call in the list comprehension of src/main.py
lines 66–72: `Restaurant(place.get("name"), place.get("rating"),
place.get("vicinity"), place["geometry"]["location"]["lat"],
place["geometry"]["location"]["lng"])`. -/
def placeToRestaurant (p : Place) : Restaurant :=
  ⟨p.name, p.rating, p.vicinity, p.location.lat, p.location.lng⟩

/-- The rating-filter predicate of src/main.py line 73:
`place.get("rating", 0) >= min_rating`. -/
def ratingOk (min_rating : Rat) (p : Place) : Bool :=
  min_rating ≤ p.rating.getD 0

/-- The URL built on src/main.py lines 56–60: the base places URL with
`keyword` and `type` appended only when truthy (`if keyword:` /
`if place_type:`).  Numeric values are interpolated via their string
representation, as the f-string does. -/
def search_places_url (lat lng : Rat) (api_key : String) (radius : Rat := 1000)
    (keyword : Option String := none) (place_type : Option String := none) : String :=
  let u := "https://maps.googleapis.com/maps/api/place/nearbysearch/json?location="
    ++ toString lat ++ "," ++ toString lng ++ "&radius=" ++ toString radius
    ++ "&key=" ++ api_key
  let u := if truthy keyword then u ++ "&keyword=" ++ keyword.getD "" else u
  if truthy place_type then u ++ "&type=" ++ place_type.getD "" else u

/-- The data transform of `search_nearby_places` (src/main.py lines 63–75):
`results = response.json().get("results", [])` followed by the filtering
list comprehension.  Applied to the decoded places response body. -/
def search_nearby_places (resp : PlacesResponse) (min_rating : Rat := 4) :
    List Restaurant :=
  let results := resp.results.getD []
  (results.filter (ratingOk min_rating)).map placeToRestaurant

/-- Observable events of one run of `main` (src/main.py lines 77–128):
errors and messages shown via streamlit, outbound HTTP requests, and the
rendering steps. -/
inductive Event where
  | errorShown (msg : String)
  | formRendered
  | geocodeRequest (url : String)
  | placesRequest (url : String)
  | infoShown (msg : String)
  | mapRendered (lat lng : Rat) (markers : Nat)
  | tableRendered (rows : List (Option String × Option Rat))
  deriving DecidableEq, Repr

/-- The configuration-error message of src/main.py line 82. -/
def config_err_msg : String :=
  "Google APIキーが設定されていません。.envファイルにGOOGLE_API_KEYを設定してください。"

/-- The empty-address validation message of src/main.py line 96. -/
def addr_err_msg : String := "住所を入力してください"

/-- The empty-result message of src/main.py line 104. -/
def no_result_msg : String :=
  "指定された条件に該当する評価4以上の飲食店が見つかりませんでした。"

/-- The environment of one run of `main`: the API key from `os.getenv`
(`none` when unset), the form inputs, whether the search button was
pressed, and the bodies the two upstream services would answer with. -/
structure Env where
  api_key : Option String
  address : String
  keyword : String
  place_type : String
  buttonPressed : Bool
  geocodeResponse : GeocodeResponse
  placesResponse : PlacesResponse

/-- `main` (src/main.py lines 77–128) as a trace of observable events.
`if not api_key:` shows the configuration error and returns before the
form is rendered; with the form rendered and the button pressed, an empty
address shows the validation error and returns; otherwise `get_coordinates`
runs first, any exception it raises is caught by the outer handler and
shown (so `search_nearby_places` is never reached), and on success the
places request, the empty-state message or the map and table follow. -/
def main (env : Env) : List Event :=
  if truthy env.api_key = false then
    [Event.errorShown config_err_msg]
  else
    let place_type := if env.place_type = "None" then none else some env.place_type
    Event.formRendered ::
      (if env.buttonPressed then
        if env.address = "" then
          [Event.errorShown addr_err_msg]
        else
          Event.geocodeRequest (geocode_url env.address (env.api_key.getD "")) ::
            (match get_coordinates env.geocodeResponse with
             | .error e => [Event.errorShown ("エラーが発生しました: " ++ e.message)]
             | .ok (lat, lng) =>
               Event.placesRequest
                   (search_places_url lat lng (env.api_key.getD "") 1000
                     (some env.keyword) place_type) ::
                 (let restaurants := search_nearby_places env.placesResponse 4
                  if restaurants.isEmpty then
                    [Event.infoShown no_result_msg]
                  else
                    [Event.mapRendered lat lng restaurants.length,
                     Event.tableRendered
                       (restaurants.map (fun r => (r.name, r.rating)))]))
      else [])

/-- Modelled from the spec: "the address and key URL-encoded as query
parameters".  Standard percent-encoding of a query-parameter value:
RFC 3986 unreserved characters (letters, digits, `-` `_` `.` `~`) are kept
verbatim, every other character is escaped as `%XX` (stated for ASCII,
which suffices for the inputs considered).  The source performs no such
encoding; this definition exists only to state the spec's claim. -/
def isUnreserved (c : Char) : Bool :=
  c.isAlphanum || c = '-' || c = '_' || c = '.' || c = '~'

/-- Upper-case hexadecimal digit for a value below 16. -/
def hexDigit (n : Nat) : Char :=
  if n < 10 then Char.ofNat (48 + n) else Char.ofNat (55 + n)

/-- Percent-encoding of a single (ASCII) character, see `isUnreserved`. -/
def percentEncodeChar (c : Char) : List Char :=
  if isUnreserved c then [c]
  else ['%', hexDigit (c.toNat / 16 % 16), hexDigit (c.toNat % 16)]

/-- Modelled from the spec: percent-encoding of a query-parameter string. -/
def percentEncode (s : String) : String :=
  String.mk (s.toList.map percentEncodeChar).flatten

/- Sample data shared by the concrete witnesses below. -/

/-- A sample place rated 4.5. -/
def samplePlaceHigh : Place :=
  ⟨some "Sushi A", some (9/2), some "1-1 Chiyoda", ⟨35, 135⟩⟩

/-- A sample place rated 3.9. -/
def samplePlaceLow : Place :=
  ⟨some "Cafe B", some (39/10), some "2-2 Chiyoda", ⟨351/10, 1351/10⟩⟩

/-- A sample place with no `rating` field. -/
def samplePlaceNoRating : Place :=
  ⟨some "Bar C", none, some "3-3 Chiyoda", ⟨35, 135⟩⟩

/-- A sample places response with all three sample places. -/
def sampleResp : PlacesResponse :=
  ⟨some [samplePlaceHigh, samplePlaceLow, samplePlaceNoRating]⟩

/-- An environment whose geocode call answers with a non-success status. -/
def envGeoFail : Env :=
  ⟨some "KEY", "Tokyo", "", "None", true, ⟨"ZERO_RESULTS", []⟩, ⟨some []⟩⟩

/-- An environment with an empty submitted address. -/
def envEmptyAddr : Env :=
  ⟨some "KEY", "", "", "None", true, ⟨"OK", [⟨⟨35, 135⟩⟩]⟩, sampleResp⟩

/-- An environment with no API key in the process environment. -/
def envNoKey : Env :=
  ⟨none, "Tokyo", "", "None", true, ⟨"OK", [⟨⟨35, 135⟩⟩]⟩, sampleResp⟩

/-- C1: every element of the list returned by `search_nearby_places` has a
rating (missing rating read as 0) at least `min_rating`, and a place whose
`rating` field is missing is excluded whenever `min_rating > 0`. -/
theorem c1_rating_lower_bound (resp : PlacesResponse) (m : Rat) (r : Restaurant)
    (hr : r ∈ search_nearby_places resp m) :
    m ≤ r.rating.getD 0 ∧ (0 < m → r.rating ≠ none) := by
  unfold search_nearby_places at hr
  simp only [List.mem_map, List.mem_filter, ratingOk, decide_eq_true_eq] at hr
  obtain ⟨p, ⟨hmem, hok⟩, rfl⟩ := hr
  refine ⟨hok, fun hm hnone => ?_⟩
  have hpr : p.rating = none := hnone
  rw [hpr] at hok
  simp only [Option.getD_none] at hok
  exact (not_lt.mpr hok) hm

/-- C1 witness: in `sampleResp` with the default minimum rating 4, the
4.5-rated place survives and satisfies the bound. -/
theorem c1_witness :
    placeToRestaurant samplePlaceHigh ∈ search_nearby_places sampleResp 4 ∧
    (4 : Rat) ≤ (placeToRestaurant samplePlaceHigh).rating.getD 0 ∧
    (0 < (4 : Rat) → (placeToRestaurant samplePlaceHigh).rating ≠ none) := by
  have hresult : search_nearby_places sampleResp 4 = [placeToRestaurant samplePlaceHigh] := by
    norm_num [search_nearby_places, sampleResp, ratingOk, samplePlaceHigh,
      samplePlaceLow, samplePlaceNoRating, List.filter]
  have hmem : placeToRestaurant samplePlaceHigh ∈ search_nearby_places sampleResp 4 := by
    rw [hresult]
    exact List.mem_singleton.mpr rfl
  exact ⟨hmem, c1_rating_lower_bound sampleResp 4 _ hmem⟩

/-- C2: with an API key present, the button pressed and a non-empty address,
a geocode response whose status is not "OK" makes `main` show the error
message of `get_coordinates` (surfaced by the outer handler) and issue no
places request; and on a status-"OK" response `get_coordinates` does not
produce the geocode error. -/
theorem c2_geocode_error_stops_pipeline (env : Env)
    (hkey : truthy env.api_key = true) (hbtn : env.buttonPressed = true)
    (haddr : env.address ≠ "") :
    (env.geocodeResponse.status ≠ "OK" →
      main env = [Event.formRendered,
        Event.geocodeRequest (geocode_url env.address (env.api_key.getD "")),
        Event.errorShown ("エラーが発生しました: " ++ geocode_err_msg)] ∧
      ∀ url, Event.placesRequest url ∉ main env) ∧
    (env.geocodeResponse.status = "OK" →
      ∀ msg, get_coordinates env.geocodeResponse ≠ .error (.geocodeError msg)) := by
  constructor
  · intro hstat
    have hgc : get_coordinates env.geocodeResponse
        = .error (.geocodeError geocode_err_msg) := by
      unfold get_coordinates
      rw [if_neg hstat]
    have htrace : main env = [Event.formRendered,
        Event.geocodeRequest (geocode_url env.address (env.api_key.getD "")),
        Event.errorShown ("エラーが発生しました: " ++ geocode_err_msg)] := by
      unfold main
      rw [hkey, hbtn, hgc]
      simp [haddr, PyError.message]
    refine ⟨htrace, fun url hmem => ?_⟩
    rw [htrace] at hmem
    simp at hmem
  · intro hstat msg h
    unfold get_coordinates at h
    rw [if_pos hstat] at h
    cases hres : env.geocodeResponse.results with
    | nil => rw [hres] at h; exact PyError.noConfusion (Except.error.inj h)
    | cons a l => rw [hres] at h; exact Except.noConfusion h

/-- C2 witness: the concrete environment `envGeoFail` (status
"ZERO_RESULTS") shows the surfaced geocode error and issues no places
request. -/
theorem c2_witness :
    main envGeoFail = [Event.formRendered,
      Event.geocodeRequest (geocode_url envGeoFail.address (envGeoFail.api_key.getD "")),
      Event.errorShown ("エラーが発生しました: " ++ geocode_err_msg)] ∧
    ∀ url, Event.placesRequest url ∉ main envGeoFail :=
  (c2_geocode_error_stops_pipeline envGeoFail rfl rfl (by decide)).1 (by decide)

/-- C3: when the `results` key is absent from the places response body,
`search_nearby_places` returns the empty list. -/
theorem c3_missing_results_empty (resp : PlacesResponse) (m : Rat)
    (h : resp.results = none) : search_nearby_places resp m = [] := by
  unfold search_nearby_places
  rw [h]
  rfl

/-- C3 witness: the response with no `results` key yields `[]`. -/
theorem c3_witness :
    (⟨none⟩ : PlacesResponse).results = none ∧
    search_nearby_places ⟨none⟩ 4 = [] :=
  ⟨rfl, c3_missing_results_empty ⟨none⟩ 4 rfl⟩

/-- C4: the filter is stable: the surviving upstream entries form an
order-preserving sublist of the upstream `results` array, and the returned
list is exactly their image under `placeToRestaurant` in that order. -/
theorem c4_stable_filter (resp : PlacesResponse) (m : Rat) :
    List.Sublist ((resp.results.getD []).filter (ratingOk m)) (resp.results.getD []) ∧
    search_nearby_places resp m
      = ((resp.results.getD []).filter (ratingOk m)).map placeToRestaurant :=
  ⟨List.filter_sublist _, rfl⟩

/-- C5 counterexample: for the address "a&b" the URL built by
`get_coordinates` is not the geocoding endpoint with the address and key
URL-encoded as query parameters (the encoded form would contain "a%26b"). -/
theorem c5_counterexample :
    ¬ (geocode_url "a&b" "k"
        = "https://maps.googleapis.com/maps/api/geocode/json?address="
          ++ percentEncode "a&b" ++ "&key=" ++ percentEncode "k") := by
  decide

/-- C5 amended: `get_coordinates` builds its request URL by verbatim string
interpolation of the address and key into the query string, with no URL
encoding; the URL coincides with the URL-encoded form exactly when both
values are already fixed points of percent-encoding (e.g. contain only
unreserved characters). -/
theorem c5_verbatim_interpolation (address api_key : String) :
    geocode_url address api_key
      = "https://maps.googleapis.com/maps/api/geocode/json?address=" ++ address
        ++ "&key=" ++ api_key ∧
    (percentEncode address = address → percentEncode api_key = api_key →
      geocode_url address api_key
        = "https://maps.googleapis.com/maps/api/geocode/json?address="
          ++ percentEncode address ++ "&key=" ++ percentEncode api_key) := by
  refine ⟨rfl, fun ha hk => ?_⟩
  rw [ha, hk]
  rfl

/-- C5 witness: for the unreserved-only address "Tokyo" and key "k" the
interpolated URL equals the URL-encoded form. -/
theorem c5_witness :
    percentEncode "Tokyo" = "Tokyo" ∧
    geocode_url "Tokyo" "k"
      = "https://maps.googleapis.com/maps/api/geocode/json?address="
        ++ percentEncode "Tokyo" ++ "&key=" ++ percentEncode "k" :=
  ⟨by decide, (c5_verbatim_interpolation "Tokyo" "k").2 (by decide) (by decide)⟩

/-- C6: with an API key present and the button pressed, an empty submitted
address makes `main` show only the validation message after the form: no
geocode and no places request appears in the trace. -/
theorem c6_empty_address_no_network (env : Env)
    (hkey : truthy env.api_key = true) (hbtn : env.buttonPressed = true)
    (haddr : env.address = "") :
    main env = [Event.formRendered, Event.errorShown addr_err_msg] ∧
    (∀ url, Event.geocodeRequest url ∉ main env) ∧
    (∀ url, Event.placesRequest url ∉ main env) := by
  have htrace : main env = [Event.formRendered, Event.errorShown addr_err_msg] := by
    unfold main
    rw [hkey, hbtn, haddr]
    simp
  refine ⟨htrace, fun url hmem => ?_, fun url hmem => ?_⟩ <;>
    rw [htrace] at hmem <;> simp at hmem

/-- C6 witness: the concrete environment `envEmptyAddr` shows the
validation message and makes no network request. -/
theorem c6_witness :
    main envEmptyAddr = [Event.formRendered, Event.errorShown addr_err_msg] ∧
    (∀ url, Event.geocodeRequest url ∉ main envEmptyAddr) ∧
    (∀ url, Event.placesRequest url ∉ main envEmptyAddr) :=
  c6_empty_address_no_network envEmptyAddr rfl rfl rfl

/-- C7: when the API key environment value is absent, `main` shows only the
configuration error and returns: the form is never rendered (no input is
accepted) and no request of either kind appears in the trace; `main` still
returns a trace (the process does not crash). -/
theorem c7_missing_key_blocks (env : Env) (hkey : env.api_key = none) :
    main env = [Event.errorShown config_err_msg] ∧
    Event.formRendered ∉ main env ∧
    (∀ url, Event.geocodeRequest url ∉ main env) ∧
    (∀ url, Event.placesRequest url ∉ main env) := by
  have htruthy : truthy env.api_key = false := by rw [hkey]; rfl
  have htrace : main env = [Event.errorShown config_err_msg] := by
    unfold main
    rw [htruthy]
    simp
  refine ⟨htrace, ?_, fun url hmem => ?_, fun url hmem => ?_⟩
  · rw [htrace]; simp
  · rw [htrace] at hmem; simp at hmem
  · rw [htrace] at hmem; simp at hmem

/-- C7 witness: the concrete environment `envNoKey` shows the configuration
error, renders no form and makes no request. -/
theorem c7_witness :
    main envNoKey = [Event.errorShown config_err_msg] ∧
    Event.formRendered ∉ main envNoKey ∧
    (∀ url, Event.geocodeRequest url ∉ main envNoKey) ∧
    (∀ url, Event.placesRequest url ∉ main envNoKey) :=
  c7_missing_key_blocks envNoKey rfl

/-- C8: on a geocode response with status "OK" whose results array has a
first element, `get_coordinates` returns that first element's latitude and
longitude (first-match policy). -/
theorem c8_first_match (resp : GeocodeResponse) (r : GeoResult)
    (rest : List GeoResult) (hs : resp.status = "OK")
    (hr : resp.results = r :: rest) :
    get_coordinates resp = .ok (r.location.lat, r.location.lng) := by
  unfold get_coordinates
  rw [if_pos hs, hr]

/-- C8 witness: a status-"OK" response with two results returns the first
one's coordinates. -/
theorem c8_witness :
    get_coordinates ⟨"OK", [⟨⟨35, 135⟩⟩, ⟨⟨36, 136⟩⟩]⟩ = .ok (35, 135) :=
  c8_first_match ⟨"OK", [⟨⟨35, 135⟩⟩, ⟨⟨36, 136⟩⟩]⟩ ⟨⟨35, 135⟩⟩ [⟨⟨36, 136⟩⟩] rfl rfl

/-- C9: `keyword` and `type` are appended to the places URL only when the
corresponding argument is truthy (so never when it is absent), with the
given value when present and non-empty; and omitting `radius` and
`min_rating` uses the defaults 1000 and 4. -/
theorem c9_optional_params_and_defaults (lat lng : Rat) (api_key : String)
    (radius : Rat) (keyword place_type : Option String) :
    (truthy keyword = false → truthy place_type = false →
      search_places_url lat lng api_key radius keyword place_type
        = "https://maps.googleapis.com/maps/api/place/nearbysearch/json?location="
          ++ toString lat ++ "," ++ toString lng ++ "&radius=" ++ toString radius
          ++ "&key=" ++ api_key) ∧
    (∀ k, k ≠ "" →
      search_places_url lat lng api_key radius (some k) none
        = "https://maps.googleapis.com/maps/api/place/nearbysearch/json?location="
          ++ toString lat ++ "," ++ toString lng ++ "&radius=" ++ toString radius
          ++ "&key=" ++ api_key ++ "&keyword=" ++ k) ∧
    (∀ t, t ≠ "" →
      search_places_url lat lng api_key radius none (some t)
        = "https://maps.googleapis.com/maps/api/place/nearbysearch/json?location="
          ++ toString lat ++ "," ++ toString lng ++ "&radius=" ++ toString radius
          ++ "&key=" ++ api_key ++ "&type=" ++ t) ∧
    search_places_url lat lng api_key = search_places_url lat lng api_key 1000 none none ∧
    (∀ resp, search_nearby_places resp = search_nearby_places resp 4) := by
  refine ⟨fun hk ht => ?_, fun k hk => ?_, fun t ht => ?_, rfl, fun resp => rfl⟩
  · unfold search_places_url
    rw [hk, ht]
    rfl
  · unfold search_places_url
    simp [truthy, hk]
  · unfold search_places_url
    simp [truthy, ht]

/-- C9 witness: with both optional filters absent the URL has neither
parameter; with keyword "yakiniku" it is appended with that value. -/
theorem c9_witness :
    search_places_url 35 135 "KEY" 500 none none
      = "https://maps.googleapis.com/maps/api/place/nearbysearch/json?location="
        ++ toString (35 : Rat) ++ "," ++ toString (135 : Rat) ++ "&radius="
        ++ toString (500 : Rat) ++ "&key=" ++ "KEY" ∧
    search_places_url 35 135 "KEY" 500 (some "yakiniku") none
      = "https://maps.googleapis.com/maps/api/place/nearbysearch/json?location="
        ++ toString (35 : Rat) ++ "," ++ toString (135 : Rat) ++ "&radius="
        ++ toString (500 : Rat) ++ "&key=" ++ "KEY" ++ "&keyword=" ++ "yakiniku" :=
  ⟨(c9_optional_params_and_defaults 35 135 "KEY" 500 none none).1 rfl rfl,
   (c9_optional_params_and_defaults 35 135 "KEY" 500 none none).2.1 "yakiniku" (by decide)⟩

/-- C10: on a status-"OK" geocode response with an empty results array,
`get_coordinates` produces the indexing error, not the user-facing geocode
error; the geocode error arises only when the status is not "OK". -/
theorem c10_ok_empty_results_index_error (resp : GeocodeResponse) :
    (resp.status = "OK" → resp.results = [] →
      get_coordinates resp = .error PyError.indexError) ∧
    (∀ msg, get_coordinates resp = .error (.geocodeError msg) →
      resp.status ≠ "OK") := by
  constructor
  · intro hs hr
    unfold get_coordinates
    rw [if_pos hs, hr]
  · intro msg h hs
    unfold get_coordinates at h
    rw [if_pos hs] at h
    cases hres : resp.results with
    | nil => rw [hres] at h; exact PyError.noConfusion (Except.error.inj h)
    | cons a l => rw [hres] at h; exact Except.noConfusion h

/-- C10 witness: the status-"OK" response with empty results yields the
index error, and a response that did yield the geocode error has non-"OK"
status. -/
theorem c10_witness :
    get_coordinates ⟨"OK", []⟩ = .error PyError.indexError ∧
    (⟨"ZERO_RESULTS", []⟩ : GeocodeResponse).status ≠ "OK" :=
  ⟨(c10_ok_empty_results_index_error ⟨"OK", []⟩).1 rfl rfl,
   (c10_ok_empty_results_index_error ⟨"ZERO_RESULTS", []⟩).2 geocode_err_msg rfl⟩

end DiningSearch
